import Mathlib

/-!
Verification of the "Revenu disponible" tax/benefit calculation engine.

The source under study defines a `QuebecIncomeTaxCalculator` Python class
(progressive income-tax brackets for 2023/2024, a tax reduction, and their
difference) and a random `generate_test_cases` household generator.  Both are
shallowly embedded here: amounts become `ℚ`, Python's `float('inf')` upper
bound becomes `Option ℚ` with `none` as the unbounded case, fallible methods
(`raise ValueError("Year not supported")`) return `Except String`, and the
`random.choice` calls are threaded through an explicit stream of naturals.
-/

namespace RevDisp

/-- `min(income, bracket["max"])` where the bracket's `max` may be
`float('inf')` (embedded as `none`). -/
def cap (income : ℚ) : Option ℚ → ℚ
  | none => income
  | some m => min income m

/-- One entry of a year's bracket table: `{"min": …, "max": …, "rate": …}`,
with `max = none` standing for `float('inf')`. -/
structure Bracket where
  min : ℚ
  max : Option ℚ
  rate : ℚ
deriving DecidableEq, Repr

/-- One iteration of the `for bracket in self.tax_brackets` loop:
`if income > bracket["min"]: tax += (min(income, bracket["max"]) - bracket["min"]) * bracket["rate"]`. -/
def bracketTax (income : ℚ) (b : Bracket) : ℚ :=
  if b.min < income then (cap income b.max - b.min) * b.rate else 0

/-- The 2023 bracket table returned by `get_tax_brackets`. -/
def brackets2023 : List Bracket :=
  [⟨0, some 46295, 15/100⟩, ⟨46295, some 92580, 20/100⟩,
   ⟨92580, some 112655, 24/100⟩, ⟨112655, none, 2575/10000⟩]

/-- The 2024 bracket table returned by `get_tax_brackets`. -/
def brackets2024 : List Bracket :=
  [⟨0, some 47000, 15/100⟩, ⟨47000, some 94000, 20/100⟩,
   ⟨94000, some 114000, 24/100⟩, ⟨114000, none, 2575/10000⟩]

/-- `QuebecIncomeTaxCalculator.get_tax_brackets`: the per-year table, or
`ValueError("Year not supported")` for any other year. -/
def get_tax_brackets (year : ℤ) : Except String (List Bracket) :=
  if year = 2023 then .ok brackets2023
  else if year = 2024 then .ok brackets2024
  else .error "Year not supported"

/-- The calculator object: `self.year` and `self.tax_brackets`. -/
structure QuebecIncomeTaxCalculator where
  year : ℤ
  tax_brackets : List Bracket
deriving DecidableEq, Repr

/-- `QuebecIncomeTaxCalculator.__init__(year)`: stores the year and the result
of `get_tax_brackets`, propagating its failure. -/
def QuebecIncomeTaxCalculator.init (year : ℤ) :
    Except String QuebecIncomeTaxCalculator :=
  (get_tax_brackets year).map fun brs => ⟨year, brs⟩

/-- `QuebecIncomeTaxCalculator.calculate_tax`. -/
def QuebecIncomeTaxCalculator.calculate_tax (c : QuebecIncomeTaxCalculator)
    (income : ℚ) : ℚ :=
  c.tax_brackets.foldl (fun tax bracket => tax + bracketTax income bracket) 0

/-- `QuebecIncomeTaxCalculator.calculate_tax_reduction`. -/
def QuebecIncomeTaxCalculator.calculate_tax_reduction
    (c : QuebecIncomeTaxCalculator) (income : ℚ) : Except String ℚ :=
  if c.year = 2023 then
    let reduction_rate : ℚ := 165/1000
    let reduction_threshold : ℚ := 16143
    .ok (if income ≤ reduction_threshold then income * reduction_rate
         else reduction_threshold * reduction_rate)
  else if c.year = 2024 then
    let reduction_rate : ℚ := 165/1000
    let reduction_threshold : ℚ := 16400
    .ok (if income ≤ reduction_threshold then income * reduction_rate
         else reduction_threshold * reduction_rate)
  else .error "Year not supported"

/-- `QuebecIncomeTaxCalculator.calculate_total_tax`: tax minus reduction. -/
def QuebecIncomeTaxCalculator.calculate_total_tax
    (c : QuebecIncomeTaxCalculator) (income : ℚ) : Except String ℚ := do
  let tax := c.calculate_tax income
  let reduction ← c.calculate_tax_reduction income
  pure (tax - reduction)

/-- State-passing form of a `calculate_tax` call.  The method body reads
`self.tax_brackets` and assigns no attribute, so its translation returns the
object state unchanged alongside the result. -/
def QuebecIncomeTaxCalculator.calculate_tax_call
    (c : QuebecIncomeTaxCalculator) (income : ℚ) :
    ℚ × QuebecIncomeTaxCalculator :=
  (c.calculate_tax income, c)

/-- State-passing form of a `calculate_tax_reduction` call (the body reads
`self.year` only, assigning no attribute). -/
def QuebecIncomeTaxCalculator.calculate_tax_reduction_call
    (c : QuebecIncomeTaxCalculator) (income : ℚ) :
    Except String ℚ × QuebecIncomeTaxCalculator :=
  (c.calculate_tax_reduction income, c)

/-- State-passing form of a `calculate_total_tax` call. -/
def QuebecIncomeTaxCalculator.calculate_total_tax_call
    (c : QuebecIncomeTaxCalculator) (income : ℚ) :
    Except String ℚ × QuebecIncomeTaxCalculator :=
  (c.calculate_total_tax income, c)

/-- The spec's progressive-bracket formula, stated in its own words:
`Σ rate_i * (min(x, upper_i) - lower_i)` over exactly those brackets whose
lower bound is strictly below `x`. -/
def progressive_bracket_sum (brs : List Bracket) (x : ℚ) : ℚ :=
  ((brs.filter fun b => decide (b.min < x)).map
    fun b => b.rate * (cap x b.max - b.min)).sum

/-- The structural shape the spec requires of a bracket table: consecutive
brackets are ordered and contiguous (each finite upper bound is the next lower
bound, hence no overlap) and the last bracket's upper bound is unbounded. -/
def brackets_wellformed : List Bracket → Bool
  | [] => true
  | [b] => b.max.isNone
  | b :: b2 :: t =>
    (match b.max with
     | none => false
     | some h => decide (b.min < h) && decide (h = b2.min))
    && brackets_wellformed (b2 :: t)

/-- Sum of a table's rates: a Lipschitz constant for the bracket tax. -/
def ratesSum (brs : List Bracket) : ℚ := (brs.map Bracket.rate).sum

/-- The spec's linear phase-out formula, stated in its own words:
`max(0, base_amount - reduction_rate * max(0, income - threshold))`. -/
def specPhaseOut (base rate threshold income : ℚ) : ℚ :=
  max 0 (base - rate * max 0 (income - threshold))

/-! ### The test-case generator

`generate_test_cases` draws every value with `random.choice(lst)`.  The
pseudo-random source is embedded as a stream of naturals together with a
cursor; each `random.choice` consumes one stream value and picks
`lst[value % len(lst)]`.  Two runs from the same stream therefore replay the
same draws, which is exactly how Python's seeded `random` behaves. -/

/-- The pseudo-random source: an infinite stream of naturals and the position
of the next unconsumed value. -/
structure Gen where
  stream : ℕ → ℕ
  pos : ℕ

/-- `random.choice(l)`: consume one stream value and index into `l` with it
(the lists below are all non-empty, so the default is never taken). -/
def randomChoice {α : Type} (l : List α) (d : α) (g : Gen) : α × Gen :=
  (l.getD (g.stream g.pos % l.length) d, ⟨g.stream, g.pos + 1⟩)

/-- `situations` candidate list. -/
def situations : List String :=
  ["Personne vivant seule", "Famille monoparentale", "Couple",
   "Retraité vivant seul", "Couple de retraités"]

/-- `revenus` candidate list. -/
def revenus : List ℕ := [0, 15000, 30000, 45000, 60000, 75000, 90000]

/-- `ages_travailleur` candidate list. -/
def ages_travailleur : List ℕ := [25, 35, 45, 55]

/-- `ages_retraite` candidate list. -/
def ages_retraite : List ℕ := [65, 75, 85]

/-- `ages_enfant` candidate list. -/
def ages_enfant : List ℕ := [2, 5, 10, 15]

/-- `nb_enfants = range(4)`. -/
def nb_enfants_range : List ℕ := [0, 1, 2, 3]

/-- `frais_garde` candidate list. -/
def frais_garde : List ℕ := [0, 8000, 15000]

/-- `types_garde` candidate list. -/
def types_garde : List String := ["Subventionnée", "Non subventionnée"]

/-- Naive substring search on character lists (Python's `needle in hay`). -/
def containsSub (needle : List Char) : List Char → Bool
  | [] => needle.isEmpty
  | c :: t => needle.isPrefixOf (c :: t) || containsSub needle t

/-- Python's `needle in hay` on strings. -/
def strIn (needle hay : String) : Bool := containsSub needle.data hay.data

/-- Python's `s.lower()` (ASCII case mapping; the accented characters in the
candidate strings are already lower case). -/
def pyLower (s : String) : String := String.mk (s.data.map Char.toLower)

/-- The per-child attributes the generator can put into the case dict:
`age_enfant{i}`, and the optional keys `frais{i}` / `type_garde{i}` (`none`
models an absent dict key; the generator in fact assigns both keys for every
generated child, in either branch of its age test). -/
structure Enfant where
  age_enfant : ℕ
  frais : Option ℕ
  type_garde : Option String
deriving DecidableEq, Repr

/-- One generated case dict: the fixed keys plus the per-child attributes
(child `i` of the dict is entry `i-1` of `enfants`; absence of all child keys
is the empty list). -/
structure TestCase where
  situation : String
  revenu1 : ℕ
  age1 : ℕ
  revenu2 : ℕ
  age2 : ℕ
  nb_enfants : ℕ
  enfants : List Enfant
deriving DecidableEq, Repr

/-- The `for i in range(1, nb_enfants + 1)` loop body: draw the child's age,
then either draw childcare fee and care type (age ≤ 5) or assign the defaults
`frais = 0`, `type_garde = 'Subventionnée'` without consuming draws. -/
def gen_enfants : ℕ → Gen → List Enfant × Gen
  | 0, g => ([], g)
  | n + 1, g =>
    let a := randomChoice ages_enfant 0 g
    let p :=
      if a.1 ≤ 5 then
        let f := randomChoice frais_garde 0 a.2
        let t := randomChoice types_garde "" f.2
        (Enfant.mk a.1 (some f.1) (some t.1), t.2)
      else
        (Enfant.mk a.1 (some 0) (some "Subventionnée"), a.2)
    let rest := gen_enfants n p.2
    (p.1 :: rest.1, rest.2)

/-- The body of one iteration of the generator loop, after the situation has
been drawn: computes the `est_retraite` / `est_couple` /
`peut_avoir_enfants` flags and fills the case dict exactly as the source
does (the second adult's draws only happen for couples, the children draws
only when the household may have children). -/
def gen_case_body (situation : String) (g : Gen) : TestCase × Gen :=
  let est_retraite : Bool := strIn "retraité" (pyLower situation)
  let est_couple : Bool := strIn "Couple" situation
  let peut_avoir_enfants : Bool :=
    !est_retraite && (situation != "Personne vivant seule")
  let r1 := randomChoice revenus 0 g
  let a1 := randomChoice
    (if est_retraite then ages_retraite else ages_travailleur) 0 r1.2
  let r2 := if est_couple then randomChoice revenus 0 a1.2 else (0, a1.2)
  let a2 := if est_couple then
      randomChoice (if est_retraite then ages_retraite else ages_travailleur)
        0 r2.2
    else (0, r2.2)
  if peut_avoir_enfants then
    let nb := randomChoice nb_enfants_range 0 a2.2
    let es := gen_enfants nb.1 nb.2
    (⟨situation, r1.1, a1.1, r2.1, a2.1, nb.1, es.1⟩, es.2)
  else
    (⟨situation, r1.1, a1.1, r2.1, a2.1, 0, []⟩, a2.2)

/-- One iteration of the `for _ in range(nobs)` loop. -/
def gen_case (g : Gen) : TestCase × Gen :=
  let s := randomChoice situations "" g
  gen_case_body s.1 s.2

/-- `generate_test_cases(nobs)`: the list of generated cases, in loop order,
together with the final state of the pseudo-random source. -/
def generate_test_cases : ℕ → Gen → List TestCase × Gen
  | 0, g => ([], g)
  | n + 1, g =>
    let c := gen_case g
    let rest := generate_test_cases n c.2
    (c.1 :: rest.1, rest.2)

/-! ### Helper lemmas about the bracket tax -/

theorem foldl_add_eq_sum (f : Bracket → ℚ) (l : List Bracket) (a : ℚ) :
    l.foldl (fun acc b => acc + f b) a = a + (l.map f).sum := by
  induction l generalizing a with
  | nil => simp
  | cons b t ih => simp [ih, add_assoc]

theorem calculate_tax_eq_sum (c : QuebecIncomeTaxCalculator) (x : ℚ) :
    c.calculate_tax x = (c.tax_brackets.map (bracketTax x)).sum := by
  unfold QuebecIncomeTaxCalculator.calculate_tax
  simpa using foldl_add_eq_sum (bracketTax x) c.tax_brackets 0

theorem map_bracketTax_sum_eq (x : ℚ) : ∀ l : List Bracket,
    (l.map (bracketTax x)).sum = progressive_bracket_sum l x
  | [] => by simp [progressive_bracket_sum]
  | b :: t => by
    have ih := map_bracketTax_sum_eq x t
    rw [List.map_cons, List.sum_cons, ih]
    unfold progressive_bracket_sum
    rw [List.filter_cons]
    by_cases h : b.min < x
    · rw [decide_eq_true h]
      simp only [if_true, List.map_cons, List.sum_cons]
      unfold bracketTax
      rw [if_pos h, mul_comm]
    · rw [decide_eq_false h]
      simp only [Bool.false_eq_true, if_false]
      unfold bracketTax
      rw [if_neg h, zero_add]

theorem calculate_tax_eq_progressive (c : QuebecIncomeTaxCalculator) (x : ℚ) :
    c.calculate_tax x = progressive_bracket_sum c.tax_brackets x := by
  rw [calculate_tax_eq_sum]; exact map_bracketTax_sum_eq x c.tax_brackets

theorem bracketTax_mono (b : Bracket) {x y : ℚ} (hr : 0 ≤ b.rate)
    (hb : ∀ h, b.max = some h → b.min ≤ h) (hxy : x ≤ y) :
    bracketTax x b ≤ bracketTax y b := by
  unfold bracketTax
  by_cases hx : b.min < x
  · have hy : b.min < y := lt_of_lt_of_le hx hxy
    rw [if_pos hx, if_pos hy]
    apply mul_le_mul_of_nonneg_right _ hr
    apply sub_le_sub_right
    cases hm : b.max with
    | none => simpa [cap] using hxy
    | some m => simpa [cap] using min_le_min hxy le_rfl
  · rw [if_neg hx]
    by_cases hy : b.min < y
    · rw [if_pos hy]
      refine mul_nonneg ?_ hr
      have hcy : b.min ≤ cap y b.max := by
        cases hm : b.max with
        | none => simpa [cap] using le_of_lt hy
        | some m => simpa [cap] using le_min (le_of_lt hy) (hb m hm)
      linarith
    · rw [if_neg hy]

theorem bracketTax_lipschitz (b : Bracket) {x y : ℚ} (hr : 0 ≤ b.rate)
    (hxy : x ≤ y) :
    bracketTax y b - bracketTax x b ≤ b.rate * (y - x) := by
  unfold bracketTax
  by_cases hy : b.min < y
  · by_cases hx : b.min < x
    · rw [if_pos hx, if_pos hy]
      have hcap : cap y b.max - cap x b.max ≤ y - x := by
        cases hm : b.max with
        | none => simp [cap]
        | some m =>
          simp only [cap]
          rcases le_total m x with h | h
          · rw [min_eq_right (le_trans h hxy), min_eq_right h]; linarith
          · rw [min_eq_left h]
            have := min_le_left y m
            linarith
      calc (cap y b.max - b.min) * b.rate - (cap x b.max - b.min) * b.rate
          = (cap y b.max - cap x b.max) * b.rate := by ring
        _ ≤ (y - x) * b.rate := mul_le_mul_of_nonneg_right hcap hr
        _ = b.rate * (y - x) := mul_comm _ _
    · rw [if_neg hx, if_pos hy]
      have h1 : cap y b.max ≤ y := by
        cases hm : b.max with
        | none => simp [cap]
        | some m => simp [cap]
      have h2 : x ≤ b.min := not_lt.mp hx
      have h3 : cap y b.max - b.min ≤ y - x := by linarith
      calc (cap y b.max - b.min) * b.rate - 0
          = (cap y b.max - b.min) * b.rate := by ring
        _ ≤ (y - x) * b.rate := mul_le_mul_of_nonneg_right h3 hr
        _ = b.rate * (y - x) := mul_comm _ _
  · have hx : ¬ b.min < x := fun hx => hy (lt_of_lt_of_le hx hxy)
    rw [if_neg hx, if_neg hy]
    have h0 : 0 ≤ y - x := by linarith
    simpa using mul_nonneg hr h0

theorem taxsum_mono (l : List Bracket)
    (hwf : ∀ b ∈ l, 0 ≤ b.rate ∧ ∀ h, b.max = some h → b.min ≤ h)
    {x y : ℚ} (hxy : x ≤ y) :
    (l.map (bracketTax x)).sum ≤ (l.map (bracketTax y)).sum :=
  List.sum_le_sum fun b hb => bracketTax_mono b (hwf b hb).1 (hwf b hb).2 hxy

theorem taxsum_lipschitz (l : List Bracket)
    (hr : ∀ b ∈ l, 0 ≤ b.rate) {x y : ℚ} (hxy : x ≤ y) :
    (l.map (bracketTax y)).sum - (l.map (bracketTax x)).sum
      ≤ ratesSum l * (y - x) := by
  induction l with
  | nil => simp [ratesSum]
  | cons b t ih =>
    have hb := bracketTax_lipschitz b (hr b (List.mem_cons_self b t)) hxy
    have ht := ih fun b2 h2 => hr b2 (List.mem_cons_of_mem b h2)
    simp only [ratesSum, List.map_cons, List.sum_cons] at ht ⊢
    rw [add_mul]
    linarith

theorem bracketTax_of_le_lo (b : Bracket) (x : ℚ) (hx : x ≤ b.min) :
    bracketTax x b = 0 := if_neg (not_lt.mpr hx)

theorem bracketTax_of_hi_le (b : Bracket) (h x : ℚ) (hm : b.max = some h)
    (hbm : b.min < h) (hx : h ≤ x) :
    bracketTax x b = (h - b.min) * b.rate := by
  unfold bracketTax
  rw [if_pos (lt_of_lt_of_le hbm hx), hm]
  simp [cap, min_eq_right hx]

theorem bracketTax_sub_span (b : Bracket) {x y : ℚ} (hx : b.min ≤ x)
    (hxy : x ≤ y) (hy : ∀ h, b.max = some h → y ≤ h) :
    bracketTax y b - bracketTax x b = b.rate * (y - x) := by
  have hcy : cap y b.max = y := by
    cases hm : b.max with
    | none => rfl
    | some m => simp [cap, min_eq_left (hy m hm)]
  have hcx : cap x b.max = x := by
    cases hm : b.max with
    | none => rfl
    | some m => simp [cap, min_eq_left (le_trans hxy (hy m hm))]
  unfold bracketTax
  by_cases hbx : b.min < x
  · rw [if_pos hbx, if_pos (lt_of_lt_of_le hbx hxy), hcy, hcx]; ring
  · have hxe : x = b.min := le_antisymm (not_lt.mp hbx) hx
    rw [if_neg hbx]
    by_cases hby : b.min < y
    · rw [if_pos hby, hcy, hxe]; ring
    · have hye : y = b.min := le_antisymm (not_lt.mp hby) (le_trans hx hxy)
      rw [if_neg hby, hxe, hye]; ring

/-! ### Resolving the constructor and the per-year parameters -/

theorem init_ok_cases (year : ℤ) (c : QuebecIncomeTaxCalculator)
    (hc : QuebecIncomeTaxCalculator.init year = .ok c) :
    (year = 2023 ∧ c = ⟨2023, brackets2023⟩) ∨
    (year = 2024 ∧ c = ⟨2024, brackets2024⟩) := by
  by_cases h23 : year = 2023
  · subst h23
    refine Or.inl ⟨rfl, ?_⟩
    have he : QuebecIncomeTaxCalculator.init 2023
        = .ok ⟨2023, brackets2023⟩ := rfl
    rw [he] at hc
    exact (Except.ok.inj hc).symm
  · by_cases h24 : year = 2024
    · subst h24
      refine Or.inr ⟨rfl, ?_⟩
      have he : QuebecIncomeTaxCalculator.init 2024
          = .ok ⟨2024, brackets2024⟩ := rfl
      rw [he] at hc
      exact (Except.ok.inj hc).symm
    · exfalso
      unfold QuebecIncomeTaxCalculator.init get_tax_brackets at hc
      rw [if_neg h23, if_neg h24] at hc
      simp [Except.map] at hc

theorem wf2023 : ∀ b ∈ brackets2023,
    0 ≤ b.rate ∧ ∀ h, b.max = some h → b.min ≤ h := by
  intro b hb
  simp only [brackets2023, List.mem_cons, List.not_mem_nil, or_false] at hb
  rcases hb with rfl | rfl | rfl | rfl <;>
    refine ⟨by norm_num, ?_⟩ <;> intro h hm <;>
    first
      | (rw [← Option.some.inj hm]; decide)
      | simp at hm

theorem wf2024 : ∀ b ∈ brackets2024,
    0 ≤ b.rate ∧ ∀ h, b.max = some h → b.min ≤ h := by
  intro b hb
  simp only [brackets2024, List.mem_cons, List.not_mem_nil, or_false] at hb
  rcases hb with rfl | rfl | rfl | rfl <;>
    refine ⟨by norm_num, ?_⟩ <;> intro h hm <;>
    first
      | (rw [← Option.some.inj hm]; decide)
      | simp at hm

theorem calculate_tax_reduction_2023 (c : QuebecIncomeTaxCalculator)
    (h : c.year = 2023) (x : ℚ) :
    c.calculate_tax_reduction x
      = .ok (if x ≤ 16143 then x * (165/1000) else 16143 * (165/1000)) := by
  unfold QuebecIncomeTaxCalculator.calculate_tax_reduction
  rw [h]
  norm_num

theorem calculate_tax_reduction_2024 (c : QuebecIncomeTaxCalculator)
    (h : c.year = 2024) (x : ℚ) :
    c.calculate_tax_reduction x
      = .ok (if x ≤ 16400 then x * (165/1000) else 16400 * (165/1000)) := by
  unfold QuebecIncomeTaxCalculator.calculate_tax_reduction
  rw [h]
  norm_num

/-- On the span of any single 2023 bracket, the bracket tax is affine with
that bracket's rate as slope. -/
theorem segment_2023 {x y : ℚ} (hxy : x ≤ y) (b : Bracket)
    (hb : b ∈ brackets2023) (hbx : b.min ≤ x)
    (hby : ∀ h, b.max = some h → y ≤ h) :
    (brackets2023.map (bracketTax y)).sum
      - (brackets2023.map (bracketTax x)).sum = b.rate * (y - x) := by
  simp only [brackets2023, List.mem_cons, List.not_mem_nil, or_false] at hb
  simp only [brackets2023, List.map_cons, List.map_nil, List.sum_cons,
    List.sum_nil, add_zero]
  rcases hb with rfl | rfl | rfl | rfl <;> dsimp only at hbx hby ⊢
  · have hy1 : y ≤ 46295 := hby 46295 rfl
    have e1 := bracketTax_sub_span ⟨0, some 46295, 15/100⟩ hbx hxy
      fun h hm => (Option.some.inj hm) ▸ hy1
    have e2x := bracketTax_of_le_lo ⟨46295, some 92580, 20/100⟩ x
      (by dsimp only; linarith)
    have e2y := bracketTax_of_le_lo ⟨46295, some 92580, 20/100⟩ y
      (by dsimp only; linarith)
    have e3x := bracketTax_of_le_lo ⟨92580, some 112655, 24/100⟩ x
      (by dsimp only; linarith)
    have e3y := bracketTax_of_le_lo ⟨92580, some 112655, 24/100⟩ y
      (by dsimp only; linarith)
    have e4x := bracketTax_of_le_lo ⟨112655, none, 2575/10000⟩ x
      (by dsimp only; linarith)
    have e4y := bracketTax_of_le_lo ⟨112655, none, 2575/10000⟩ y
      (by dsimp only; linarith)
    dsimp only at e1
    linarith [e1, e2x, e2y, e3x, e3y, e4x, e4y]
  · have hy2 : y ≤ 92580 := hby 92580 rfl
    have e1x := bracketTax_of_hi_le ⟨0, some 46295, 15/100⟩ 46295 x rfl
      (by norm_num) hbx
    have e1y := bracketTax_of_hi_le ⟨0, some 46295, 15/100⟩ 46295 y rfl
      (by norm_num) (by linarith)
    have e2 := bracketTax_sub_span ⟨46295, some 92580, 20/100⟩ hbx hxy
      fun h hm => (Option.some.inj hm) ▸ hy2
    have e3x := bracketTax_of_le_lo ⟨92580, some 112655, 24/100⟩ x
      (by dsimp only; linarith)
    have e3y := bracketTax_of_le_lo ⟨92580, some 112655, 24/100⟩ y
      (by dsimp only; linarith)
    have e4x := bracketTax_of_le_lo ⟨112655, none, 2575/10000⟩ x
      (by dsimp only; linarith)
    have e4y := bracketTax_of_le_lo ⟨112655, none, 2575/10000⟩ y
      (by dsimp only; linarith)
    dsimp only at e1x e1y e2
    linarith [e1x, e1y, e2, e3x, e3y, e4x, e4y]
  · have hy3 : y ≤ 112655 := hby 112655 rfl
    have e1x := bracketTax_of_hi_le ⟨0, some 46295, 15/100⟩ 46295 x rfl
      (by norm_num) (by linarith)
    have e1y := bracketTax_of_hi_le ⟨0, some 46295, 15/100⟩ 46295 y rfl
      (by norm_num) (by linarith)
    have e2x := bracketTax_of_hi_le ⟨46295, some 92580, 20/100⟩ 92580 x rfl
      (by norm_num) hbx
    have e2y := bracketTax_of_hi_le ⟨46295, some 92580, 20/100⟩ 92580 y rfl
      (by norm_num) (by linarith)
    have e3 := bracketTax_sub_span ⟨92580, some 112655, 24/100⟩ hbx hxy
      fun h hm => (Option.some.inj hm) ▸ hy3
    have e4x := bracketTax_of_le_lo ⟨112655, none, 2575/10000⟩ x
      (by dsimp only; linarith)
    have e4y := bracketTax_of_le_lo ⟨112655, none, 2575/10000⟩ y
      (by dsimp only; linarith)
    dsimp only at e1x e1y e2x e2y e3
    linarith [e1x, e1y, e2x, e2y, e3, e4x, e4y]
  · have e1x := bracketTax_of_hi_le ⟨0, some 46295, 15/100⟩ 46295 x rfl
      (by norm_num) (by linarith)
    have e1y := bracketTax_of_hi_le ⟨0, some 46295, 15/100⟩ 46295 y rfl
      (by norm_num) (by linarith)
    have e2x := bracketTax_of_hi_le ⟨46295, some 92580, 20/100⟩ 92580 x rfl
      (by norm_num) (by linarith)
    have e2y := bracketTax_of_hi_le ⟨46295, some 92580, 20/100⟩ 92580 y rfl
      (by norm_num) (by linarith)
    have e3x := bracketTax_of_hi_le ⟨92580, some 112655, 24/100⟩ 112655 x rfl
      (by norm_num) hbx
    have e3y := bracketTax_of_hi_le ⟨92580, some 112655, 24/100⟩ 112655 y rfl
      (by norm_num) (by linarith)
    have e4 := bracketTax_sub_span ⟨112655, none, 2575/10000⟩ hbx hxy
      fun h hm => by cases hm
    dsimp only at e1x e1y e2x e2y e3x e3y e4
    linarith [e1x, e1y, e2x, e2y, e3x, e3y, e4]

/-- On the span of any single 2024 bracket, the bracket tax is affine with
that bracket's rate as slope. -/
theorem segment_2024 {x y : ℚ} (hxy : x ≤ y) (b : Bracket)
    (hb : b ∈ brackets2024) (hbx : b.min ≤ x)
    (hby : ∀ h, b.max = some h → y ≤ h) :
    (brackets2024.map (bracketTax y)).sum
      - (brackets2024.map (bracketTax x)).sum = b.rate * (y - x) := by
  simp only [brackets2024, List.mem_cons, List.not_mem_nil, or_false] at hb
  simp only [brackets2024, List.map_cons, List.map_nil, List.sum_cons,
    List.sum_nil, add_zero]
  rcases hb with rfl | rfl | rfl | rfl <;> dsimp only at hbx hby ⊢
  · have hy1 : y ≤ 47000 := hby 47000 rfl
    have e1 := bracketTax_sub_span ⟨0, some 47000, 15/100⟩ hbx hxy
      fun h hm => (Option.some.inj hm) ▸ hy1
    have e2x := bracketTax_of_le_lo ⟨47000, some 94000, 20/100⟩ x
      (by dsimp only; linarith)
    have e2y := bracketTax_of_le_lo ⟨47000, some 94000, 20/100⟩ y
      (by dsimp only; linarith)
    have e3x := bracketTax_of_le_lo ⟨94000, some 114000, 24/100⟩ x
      (by dsimp only; linarith)
    have e3y := bracketTax_of_le_lo ⟨94000, some 114000, 24/100⟩ y
      (by dsimp only; linarith)
    have e4x := bracketTax_of_le_lo ⟨114000, none, 2575/10000⟩ x
      (by dsimp only; linarith)
    have e4y := bracketTax_of_le_lo ⟨114000, none, 2575/10000⟩ y
      (by dsimp only; linarith)
    dsimp only at e1
    linarith [e1, e2x, e2y, e3x, e3y, e4x, e4y]
  · have hy2 : y ≤ 94000 := hby 94000 rfl
    have e1x := bracketTax_of_hi_le ⟨0, some 47000, 15/100⟩ 47000 x rfl
      (by norm_num) hbx
    have e1y := bracketTax_of_hi_le ⟨0, some 47000, 15/100⟩ 47000 y rfl
      (by norm_num) (by linarith)
    have e2 := bracketTax_sub_span ⟨47000, some 94000, 20/100⟩ hbx hxy
      fun h hm => (Option.some.inj hm) ▸ hy2
    have e3x := bracketTax_of_le_lo ⟨94000, some 114000, 24/100⟩ x
      (by dsimp only; linarith)
    have e3y := bracketTax_of_le_lo ⟨94000, some 114000, 24/100⟩ y
      (by dsimp only; linarith)
    have e4x := bracketTax_of_le_lo ⟨114000, none, 2575/10000⟩ x
      (by dsimp only; linarith)
    have e4y := bracketTax_of_le_lo ⟨114000, none, 2575/10000⟩ y
      (by dsimp only; linarith)
    dsimp only at e1x e1y e2
    linarith [e1x, e1y, e2, e3x, e3y, e4x, e4y]
  · have hy3 : y ≤ 114000 := hby 114000 rfl
    have e1x := bracketTax_of_hi_le ⟨0, some 47000, 15/100⟩ 47000 x rfl
      (by norm_num) (by linarith)
    have e1y := bracketTax_of_hi_le ⟨0, some 47000, 15/100⟩ 47000 y rfl
      (by norm_num) (by linarith)
    have e2x := bracketTax_of_hi_le ⟨47000, some 94000, 20/100⟩ 94000 x rfl
      (by norm_num) hbx
    have e2y := bracketTax_of_hi_le ⟨47000, some 94000, 20/100⟩ 94000 y rfl
      (by norm_num) (by linarith)
    have e3 := bracketTax_sub_span ⟨94000, some 114000, 24/100⟩ hbx hxy
      fun h hm => (Option.some.inj hm) ▸ hy3
    have e4x := bracketTax_of_le_lo ⟨114000, none, 2575/10000⟩ x
      (by dsimp only; linarith)
    have e4y := bracketTax_of_le_lo ⟨114000, none, 2575/10000⟩ y
      (by dsimp only; linarith)
    dsimp only at e1x e1y e2x e2y e3
    linarith [e1x, e1y, e2x, e2y, e3, e4x, e4y]
  · have e1x := bracketTax_of_hi_le ⟨0, some 47000, 15/100⟩ 47000 x rfl
      (by norm_num) (by linarith)
    have e1y := bracketTax_of_hi_le ⟨0, some 47000, 15/100⟩ 47000 y rfl
      (by norm_num) (by linarith)
    have e2x := bracketTax_of_hi_le ⟨47000, some 94000, 20/100⟩ 94000 x rfl
      (by norm_num) (by linarith)
    have e2y := bracketTax_of_hi_le ⟨47000, some 94000, 20/100⟩ 94000 y rfl
      (by norm_num) (by linarith)
    have e3x := bracketTax_of_hi_le ⟨94000, some 114000, 24/100⟩ 114000 x rfl
      (by norm_num) hbx
    have e3y := bracketTax_of_hi_le ⟨94000, some 114000, 24/100⟩ 114000 y rfl
      (by norm_num) (by linarith)
    have e4 := bracketTax_sub_span ⟨114000, none, 2575/10000⟩ hbx hxy
      fun h hm => by cases hm
    dsimp only at e1x e1y e2x e2y e3x e3y e4
    linarith [e1x, e1y, e2x, e2y, e3x, e3y, e4]

/-! ### The claims -/

/-- C1: for every supported year (2023, 2024) and every non-negative income
`x`, `calculate_tax x` equals the progressive-bracket sum
`Σ rate_i * (min(x, upper_i) - lower_i)` over exactly those brackets whose
lower bound is strictly below `x`, and the year's bracket table is ordered,
non-overlapping (contiguous) with an unbounded top bracket. -/
theorem claim_c1_progressive_brackets (year : ℤ)
    (_hy : year = 2023 ∨ year = 2024) (c : QuebecIncomeTaxCalculator)
    (hc : QuebecIncomeTaxCalculator.init year = .ok c) (x : ℚ)
    (_hx : 0 ≤ x) :
    c.calculate_tax x = progressive_bracket_sum c.tax_brackets x ∧
    brackets_wellformed c.tax_brackets = true := by
  refine ⟨calculate_tax_eq_progressive c x, ?_⟩
  rcases init_ok_cases year c hc with ⟨_, rfl⟩ | ⟨_, rfl⟩ <;>
    norm_num [brackets_wellformed, brackets2023, brackets2024]

theorem claim_c1_witness :
    (QuebecIncomeTaxCalculator.mk 2023 brackets2023).calculate_tax 50000
      = progressive_bracket_sum brackets2023 50000 ∧
    brackets_wellformed brackets2023 = true :=
  claim_c1_progressive_brackets 2023 (Or.inl rfl) ⟨2023, brackets2023⟩ rfl
    50000 (by norm_num)

/-- C2 as stated is false: `calculate_tax_reduction` is not a linear
phase-out.  No base amount whatsoever makes
`max(0, base - 0.165 * max(0, income - 16143))` agree with the 2023 code on
all non-negative incomes: the phase-out formula is constant below the
threshold, while the code returns `income * 0.165`, which differs between
income 0 and income 16143. -/
theorem claim_c2_counterexample :
    ¬ ∃ base : ℚ, ∀ x : ℚ, 0 ≤ x →
      (QuebecIncomeTaxCalculator.mk 2023 brackets2023).calculate_tax_reduction
          x = .ok (specPhaseOut base (165/1000) 16143 x) := by
  rintro ⟨base, h⟩
  have h0 := h 0 le_rfl
  have h1 := h 16143 (by norm_num)
  rw [calculate_tax_reduction_2023 _ rfl] at h0 h1
  rw [if_pos (by norm_num : (0:ℚ) ≤ 16143)] at h0
  rw [if_pos (by norm_num : (16143:ℚ) ≤ 16143)] at h1
  have e0 : (0 : ℚ) * (165/1000) = specPhaseOut base (165/1000) 16143 0 :=
    Except.ok.inj h0
  have e1 : (16143 : ℚ) * (165/1000)
      = specPhaseOut base (165/1000) 16143 16143 := Except.ok.inj h1
  unfold specPhaseOut at e0 e1
  rw [show max (0:ℚ) (0 - 16143) = 0 by norm_num] at e0
  rw [show max (0:ℚ) (16143 - 16143) = 0 by norm_num] at e1
  rw [mul_zero, sub_zero] at e0 e1
  rw [← e0] at e1
  norm_num at e1

/-- C2 (amended): for every supported year and every non-negative income,
`calculate_tax_reduction income` equals
`reduction_rate * min(income, reduction_threshold)` for that year's rate
(0.165) and threshold (16143 for 2023, 16400 for 2024) — an amount that
grows with income up to the threshold and is constant above it — and the
returned amount is never negative. -/
theorem claim_c2_amended (year : ℤ) (c : QuebecIncomeTaxCalculator)
    (hc : QuebecIncomeTaxCalculator.init year = .ok c) (x : ℚ)
    (hx : 0 ≤ x) :
    ∃ t : ℚ, ((year = 2023 ∧ t = 16143) ∨ (year = 2024 ∧ t = 16400)) ∧
      c.calculate_tax_reduction x = .ok ((165/1000) * min x t) ∧
      0 ≤ (165/1000 : ℚ) * min x t := by
  rcases init_ok_cases year c hc with ⟨rfl, rfl⟩ | ⟨rfl, rfl⟩
  · refine ⟨16143, Or.inl ⟨rfl, rfl⟩, ?_, ?_⟩
    · rw [calculate_tax_reduction_2023 _ rfl]
      by_cases h : x ≤ 16143
      · rw [if_pos h, min_eq_left h, mul_comm]
      · rw [if_neg h, min_eq_right (le_of_not_le h), mul_comm]
    · exact mul_nonneg (by norm_num) (le_min hx (by norm_num))
  · refine ⟨16400, Or.inr ⟨rfl, rfl⟩, ?_, ?_⟩
    · rw [calculate_tax_reduction_2024 _ rfl]
      by_cases h : x ≤ 16400
      · rw [if_pos h, min_eq_left h, mul_comm]
      · rw [if_neg h, min_eq_right (le_of_not_le h), mul_comm]
    · exact mul_nonneg (by norm_num) (le_min hx (by norm_num))

theorem claim_c2_witness :
    ∃ t : ℚ, (((2023:ℤ) = 2023 ∧ t = 16143) ∨ ((2023:ℤ) = 2024 ∧ t = 16400)) ∧
      (QuebecIncomeTaxCalculator.mk 2023 brackets2023).calculate_tax_reduction
          5000 = .ok ((165/1000) * min 5000 t) ∧
      0 ≤ (165/1000 : ℚ) * min 5000 t :=
  claim_c2_amended 2023 ⟨2023, brackets2023⟩ rfl 5000 (by norm_num)

/-- C3: for each supported year, `calculate_tax` is, on non-negative incomes,
non-decreasing, Lipschitz with the sum of the table's rates as constant
(hence continuous: no jump at any bracket boundary), and piecewise linear:
on the span of any single bracket it is affine with that bracket's rate as
slope. -/
theorem claim_c3_monotone_continuous (year : ℤ)
    (_hy : year = 2023 ∨ year = 2024) (c : QuebecIncomeTaxCalculator)
    (hc : QuebecIncomeTaxCalculator.init year = .ok c)
    (x y : ℚ) (_hx : 0 ≤ x) (hxy : x ≤ y) :
    c.calculate_tax x ≤ c.calculate_tax y ∧
    c.calculate_tax y - c.calculate_tax x
      ≤ ratesSum c.tax_brackets * (y - x) ∧
    ∀ b ∈ c.tax_brackets, b.min ≤ x → (∀ h, b.max = some h → y ≤ h) →
      c.calculate_tax y - c.calculate_tax x = b.rate * (y - x) := by
  rcases init_ok_cases year c hc with ⟨_, rfl⟩ | ⟨_, rfl⟩
  · refine ⟨?_, ?_, ?_⟩
    · rw [calculate_tax_eq_sum, calculate_tax_eq_sum]
      exact taxsum_mono _ wf2023 hxy
    · rw [calculate_tax_eq_sum, calculate_tax_eq_sum]
      exact taxsum_lipschitz _ (fun b hb => (wf2023 b hb).1) hxy
    · intro b hb hbx hby
      rw [calculate_tax_eq_sum, calculate_tax_eq_sum]
      exact segment_2023 hxy b hb hbx hby
  · refine ⟨?_, ?_, ?_⟩
    · rw [calculate_tax_eq_sum, calculate_tax_eq_sum]
      exact taxsum_mono _ wf2024 hxy
    · rw [calculate_tax_eq_sum, calculate_tax_eq_sum]
      exact taxsum_lipschitz _ (fun b hb => (wf2024 b hb).1) hxy
    · intro b hb hbx hby
      rw [calculate_tax_eq_sum, calculate_tax_eq_sum]
      exact segment_2024 hxy b hb hbx hby

theorem claim_c3_witness :
    (QuebecIncomeTaxCalculator.mk 2023 brackets2023).calculate_tax 1
      ≤ (QuebecIncomeTaxCalculator.mk 2023 brackets2023).calculate_tax 2 ∧
    (QuebecIncomeTaxCalculator.mk 2023 brackets2023).calculate_tax 2
      - (QuebecIncomeTaxCalculator.mk 2023 brackets2023).calculate_tax 1
      ≤ ratesSum brackets2023 * (2 - 1) ∧
    ∀ b ∈ brackets2023, b.min ≤ 1 → (∀ h, b.max = some h → 2 ≤ h) →
      (QuebecIncomeTaxCalculator.mk 2023 brackets2023).calculate_tax 2
        - (QuebecIncomeTaxCalculator.mk 2023 brackets2023).calculate_tax 1
        = b.rate * (2 - 1) :=
  claim_c3_monotone_continuous 2023 (Or.inl rfl) ⟨2023, brackets2023⟩ rfl
    1 2 (by norm_num) (by norm_num)

/-- C4: evaluation is deterministic and side-effect-free: on equal inputs two
calls of `calculate_total_tax` (and of `calculate_tax` and
`calculate_tax_reduction`) return identical results, and a call leaves the
calculator's state unchanged (the method bodies assign no attribute, so
their state-passing translations return the object unmodified). -/
theorem claim_c4_deterministic (c : QuebecIncomeTaxCalculator) (x : ℚ) :
    (c.calculate_total_tax_call x = c.calculate_total_tax_call x ∧
      (c.calculate_total_tax_call x).2 = c) ∧
    (c.calculate_tax_call x = c.calculate_tax_call x ∧
      (c.calculate_tax_call x).2 = c) ∧
    (c.calculate_tax_reduction_call x = c.calculate_tax_reduction_call x ∧
      (c.calculate_tax_reduction_call x).2 = c) :=
  ⟨⟨rfl, rfl⟩, ⟨rfl, rfl⟩, ⟨rfl, rfl⟩⟩

/-- C5: requesting parameters for a year outside {2023, 2024} fails with the
"Year not supported" error — in `get_tax_brackets`, hence in the
constructor, and in `calculate_tax_reduction` — while for 2023 and 2024 all
of them succeed. -/
theorem claim_c5_unsupported_year (year : ℤ) :
    (year ≠ 2023 → year ≠ 2024 →
      get_tax_brackets year = .error "Year not supported" ∧
      QuebecIncomeTaxCalculator.init year = .error "Year not supported" ∧
      ∀ (c : QuebecIncomeTaxCalculator) (x : ℚ), c.year = year →
        c.calculate_tax_reduction x = .error "Year not supported") ∧
    ((year = 2023 ∨ year = 2024) →
      (∃ brs, get_tax_brackets year = .ok brs) ∧
      (∃ c, QuebecIncomeTaxCalculator.init year = .ok c) ∧
      ∀ (c : QuebecIncomeTaxCalculator) (x : ℚ),
        QuebecIncomeTaxCalculator.init year = .ok c →
        ∃ r, c.calculate_tax_reduction x = .ok r) := by
  constructor
  · intro h23 h24
    have hg : get_tax_brackets year = .error "Year not supported" := by
      unfold get_tax_brackets
      rw [if_neg h23, if_neg h24]
    refine ⟨hg, ?_, ?_⟩
    · unfold QuebecIncomeTaxCalculator.init
      rw [hg]
      rfl
    · intro c x hcy
      unfold QuebecIncomeTaxCalculator.calculate_tax_reduction
      rw [hcy, if_neg h23, if_neg h24]
  · rintro (rfl | rfl)
    · refine ⟨⟨brackets2023, rfl⟩, ⟨⟨2023, brackets2023⟩, rfl⟩, ?_⟩
      intro c x hc
      rcases init_ok_cases 2023 c hc with ⟨_, rfl⟩ | ⟨h, _⟩
      · exact ⟨_, calculate_tax_reduction_2023 _ rfl x⟩
      · exact absurd h (by norm_num)
    · refine ⟨⟨brackets2024, rfl⟩, ⟨⟨2024, brackets2024⟩, rfl⟩, ?_⟩
      intro c x hc
      rcases init_ok_cases 2024 c hc with ⟨h, _⟩ | ⟨_, rfl⟩
      · exact absurd h (by norm_num)
      · exact ⟨_, calculate_tax_reduction_2024 _ rfl x⟩

theorem claim_c5_witness :
    get_tax_brackets 2025 = .error "Year not supported" ∧
    (∃ brs, get_tax_brackets 2023 = .ok brs) :=
  ⟨((claim_c5_unsupported_year 2025).1 (by norm_num) (by norm_num)).1,
   ((claim_c5_unsupported_year 2023).2 (Or.inl rfl)).1⟩

/-- C6: for each supported year, at zero income the tax, the tax reduction
and the total tax are all zero. -/
theorem claim_c6_zero_income (year : ℤ) (c : QuebecIncomeTaxCalculator)
    (hc : QuebecIncomeTaxCalculator.init year = .ok c) :
    c.calculate_tax 0 = 0 ∧ c.calculate_tax_reduction 0 = .ok 0 ∧
    c.calculate_total_tax 0 = .ok 0 := by
  have hzero : ∀ c2 : QuebecIncomeTaxCalculator,
      (∀ b ∈ c2.tax_brackets, (0:ℚ) ≤ b.min) → c2.calculate_tax 0 = 0 := by
    intro c2 hmin
    rw [calculate_tax_eq_sum]
    apply List.sum_eq_zero
    intro z hz
    rw [List.mem_map] at hz
    obtain ⟨b, hb, rfl⟩ := hz
    exact bracketTax_of_le_lo b 0 (hmin b hb)
  rcases init_ok_cases year c hc with ⟨_, rfl⟩ | ⟨_, rfl⟩
  · have t0 : (QuebecIncomeTaxCalculator.mk 2023
        brackets2023).calculate_tax 0 = 0 := by
      apply hzero
      intro b hb
      simp only [brackets2023, List.mem_cons, List.not_mem_nil,
        or_false] at hb
      rcases hb with rfl | rfl | rfl | rfl <;> decide
    have r0 : (QuebecIncomeTaxCalculator.mk 2023
        brackets2023).calculate_tax_reduction 0 = .ok 0 := by
      rw [calculate_tax_reduction_2023 _ rfl,
        if_pos (by norm_num : (0:ℚ) ≤ 16143)]
      norm_num
    refine ⟨t0, r0, ?_⟩
    unfold QuebecIncomeTaxCalculator.calculate_total_tax
    rw [r0, t0]
    show (Except.ok ((0:ℚ) - 0) : Except String ℚ) = .ok 0
    norm_num
  · have t0 : (QuebecIncomeTaxCalculator.mk 2024
        brackets2024).calculate_tax 0 = 0 := by
      apply hzero
      intro b hb
      simp only [brackets2024, List.mem_cons, List.not_mem_nil,
        or_false] at hb
      rcases hb with rfl | rfl | rfl | rfl <;> decide
    have r0 : (QuebecIncomeTaxCalculator.mk 2024
        brackets2024).calculate_tax_reduction 0 = .ok 0 := by
      rw [calculate_tax_reduction_2024 _ rfl,
        if_pos (by norm_num : (0:ℚ) ≤ 16400)]
      norm_num
    refine ⟨t0, r0, ?_⟩
    unfold QuebecIncomeTaxCalculator.calculate_total_tax
    rw [r0, t0]
    show (Except.ok ((0:ℚ) - 0) : Except String ℚ) = .ok 0
    norm_num

theorem claim_c6_witness :
    (QuebecIncomeTaxCalculator.mk 2023 brackets2023).calculate_tax 0 = 0 ∧
    (QuebecIncomeTaxCalculator.mk 2023
      brackets2023).calculate_tax_reduction 0 = .ok 0 ∧
    (QuebecIncomeTaxCalculator.mk 2023 brackets2023).calculate_total_tax 0
      = .ok 0 :=
  claim_c6_zero_income 2023 ⟨2023, brackets2023⟩ rfl

/-- C9: for each supported year and every income strictly between 0 and that
year's reduction threshold, the total tax after reduction is strictly
negative (the reduction rate 0.165 exceeds the first bracket rate 0.15). -/
theorem claim_c9_negative_total (year : ℤ) (c : QuebecIncomeTaxCalculator)
    (hc : QuebecIncomeTaxCalculator.init year = .ok c) (t : ℚ)
    (ht : (year = 2023 ∧ t = 16143) ∨ (year = 2024 ∧ t = 16400))
    (x : ℚ) (h0 : 0 < x) (hxt : x < t) :
    ∃ r, c.calculate_total_tax x = .ok r ∧ r < 0 := by
  rcases init_ok_cases year c hc with ⟨hy, rfl⟩ | ⟨hy, rfl⟩ <;>
    rcases ht with ⟨hy2, rfl⟩ | ⟨hy2, rfl⟩
  · -- 2023
    have htax : (QuebecIncomeTaxCalculator.mk 2023
        brackets2023).calculate_tax x = x * (15/100) := by
      rw [calculate_tax_eq_sum]
      simp only [brackets2023, List.map_cons, List.map_nil, List.sum_cons,
        List.sum_nil, add_zero]
      have e1 : bracketTax x ⟨0, some 46295, 15/100⟩ = x * (15/100) := by
        unfold bracketTax cap
        rw [if_pos (show (Bracket.mk 0 (some 46295) (15/100)).min < x from h0)]
        dsimp only
        rw [min_eq_left (by linarith), sub_zero]
      have e2 := bracketTax_of_le_lo ⟨46295, some 92580, 20/100⟩ x
        (by dsimp only; linarith)
      have e3 := bracketTax_of_le_lo ⟨92580, some 112655, 24/100⟩ x
        (by dsimp only; linarith)
      have e4 := bracketTax_of_le_lo ⟨112655, none, 2575/10000⟩ x
        (by dsimp only; linarith)
      rw [e1, e2, e3, e4]
      ring
    refine ⟨x * (15/100) - x * (165/1000), ?_, by linarith⟩
    unfold QuebecIncomeTaxCalculator.calculate_total_tax
    rw [calculate_tax_reduction_2023 _ rfl, if_pos (le_of_lt hxt), htax]
    rfl
  · exact absurd (hy ▸ hy2) (by norm_num)
  · exact absurd (hy ▸ hy2) (by norm_num)
  · -- 2024
    have htax : (QuebecIncomeTaxCalculator.mk 2024
        brackets2024).calculate_tax x = x * (15/100) := by
      rw [calculate_tax_eq_sum]
      simp only [brackets2024, List.map_cons, List.map_nil, List.sum_cons,
        List.sum_nil, add_zero]
      have e1 : bracketTax x ⟨0, some 47000, 15/100⟩ = x * (15/100) := by
        unfold bracketTax cap
        rw [if_pos (show (Bracket.mk 0 (some 47000) (15/100)).min < x from h0)]
        dsimp only
        rw [min_eq_left (by linarith), sub_zero]
      have e2 := bracketTax_of_le_lo ⟨47000, some 94000, 20/100⟩ x
        (by dsimp only; linarith)
      have e3 := bracketTax_of_le_lo ⟨94000, some 114000, 24/100⟩ x
        (by dsimp only; linarith)
      have e4 := bracketTax_of_le_lo ⟨114000, none, 2575/10000⟩ x
        (by dsimp only; linarith)
      rw [e1, e2, e3, e4]
      ring
    refine ⟨x * (15/100) - x * (165/1000), ?_, by linarith⟩
    unfold QuebecIncomeTaxCalculator.calculate_total_tax
    rw [calculate_tax_reduction_2024 _ rfl, if_pos (le_of_lt hxt), htax]
    rfl

theorem claim_c9_witness :
    ∃ r, (QuebecIncomeTaxCalculator.mk 2023
        brackets2023).calculate_total_tax 100 = .ok r ∧ r < 0 :=
  claim_c9_negative_total 2023 ⟨2023, brackets2023⟩ rfl 16143
    (Or.inl ⟨rfl, rfl⟩) 100 (by norm_num) (by norm_num)

/-! ### Helper lemmas about the test-case generator -/

theorem randomChoice_fst_mem {α : Type} (l : List α) (d : α) (g : Gen)
    (h : l ≠ []) : (randomChoice l d g).1 ∈ l := by
  unfold randomChoice
  dsimp only
  have hlen : g.stream g.pos % l.length < l.length :=
    Nat.mod_lt _ (List.length_pos.mpr h)
  rw [List.getD_eq_getElem?_getD, List.getElem?_eq_getElem hlen]
  exact List.getElem_mem hlen

/-- Every child produced by the child loop has its age drawn from
`ages_enfant`; children aged ≤ 5 get a drawn fee and care type, children
older than 5 get the defaults `some 0` / `some "Subventionnée"`. -/
theorem gen_enfants_spec : ∀ (n : ℕ) (g : Gen),
    ∀ e ∈ (gen_enfants n g).1,
      e.age_enfant ∈ ages_enfant ∧
      (e.age_enfant ≤ 5 →
        (∃ f ∈ frais_garde, e.frais = some f) ∧
        ∃ t ∈ types_garde, e.type_garde = some t) ∧
      (5 < e.age_enfant →
        e.frais = some 0 ∧ e.type_garde = some "Subventionnée")
  | 0, g => by simp [gen_enfants]
  | n + 1, g => by
    intro e he
    rw [gen_enfants] at he
    simp only at he
    rcases List.mem_cons.mp he with rfl | ht
    · by_cases ha : (randomChoice ages_enfant 0 g).1 ≤ 5
      · rw [if_pos ha]
        refine ⟨randomChoice_fst_mem _ _ _ (by simp [ages_enfant]), ?_, ?_⟩
        · intro _
          exact ⟨⟨_, randomChoice_fst_mem _ _ _ (by simp [frais_garde]), rfl⟩,
                 ⟨_, randomChoice_fst_mem _ _ _ (by simp [types_garde]), rfl⟩⟩
        · intro h5
          exact absurd ha (not_le.mpr h5)
      · rw [if_neg ha]
        refine ⟨randomChoice_fst_mem _ _ _ (by simp [ages_enfant]), ?_, ?_⟩
        · intro h5
          exact absurd h5 ha
        · intro _
          exact ⟨rfl, rfl⟩
    · exact gen_enfants_spec n _ e ht

theorem gcb_situation (s : String) (g : Gen) :
    (gen_case_body s g).1.situation = s := by
  cases hret : strIn "retraité" (pyLower s) <;>
    cases hpes : s != "Personne vivant seule" <;>
    simp [gen_case_body, hret, hpes]

theorem gcb_revenu1 (s : String) (g : Gen) :
    (gen_case_body s g).1.revenu1 ∈ revenus := by
  cases hret : strIn "retraité" (pyLower s) <;>
    cases hpes : s != "Personne vivant seule" <;>
    cases hcpl : strIn "Couple" s <;>
    simp [gen_case_body, hret, hpes, hcpl] <;>
    exact randomChoice_fst_mem _ _ _ (by simp [revenus])

theorem gcb_age1_ret (s : String) (g : Gen)
    (h : strIn "retraité" (pyLower s) = true) :
    (gen_case_body s g).1.age1 ∈ ages_retraite := by
  cases hpes : s != "Personne vivant seule" <;>
    cases hcpl : strIn "Couple" s <;>
    simp [gen_case_body, h, hpes, hcpl] <;>
    exact randomChoice_fst_mem _ _ _ (by simp [ages_retraite])

theorem gcb_age1_trav (s : String) (g : Gen)
    (h : strIn "retraité" (pyLower s) = false) :
    (gen_case_body s g).1.age1 ∈ ages_travailleur := by
  cases hpes : s != "Personne vivant seule" <;>
    cases hcpl : strIn "Couple" s <;>
    simp [gen_case_body, h, hpes, hcpl] <;>
    exact randomChoice_fst_mem _ _ _ (by simp [ages_travailleur])

theorem gcb_noncouple (s : String) (g : Gen)
    (h : strIn "Couple" s = false) :
    (gen_case_body s g).1.revenu2 = 0 ∧ (gen_case_body s g).1.age2 = 0 := by
  cases hret : strIn "retraité" (pyLower s) <;>
    cases hpes : s != "Personne vivant seule" <;>
    simp [gen_case_body, hret, hpes, h]

theorem gcb_couple_revenu2 (s : String) (g : Gen)
    (h : strIn "Couple" s = true) :
    (gen_case_body s g).1.revenu2 ∈ revenus := by
  cases hret : strIn "retraité" (pyLower s) <;>
    cases hpes : s != "Personne vivant seule" <;>
    simp [gen_case_body, hret, hpes, h] <;>
    exact randomChoice_fst_mem _ _ _ (by simp [revenus])

theorem gcb_couple_age2_ret (s : String) (g : Gen)
    (h : strIn "Couple" s = true)
    (hr : strIn "retraité" (pyLower s) = true) :
    (gen_case_body s g).1.age2 ∈ ages_retraite := by
  cases hpes : s != "Personne vivant seule" <;>
    simp [gen_case_body, hr, hpes, h] <;>
    exact randomChoice_fst_mem _ _ _ (by simp [ages_retraite])

theorem gcb_couple_age2_trav (s : String) (g : Gen)
    (h : strIn "Couple" s = true)
    (hr : strIn "retraité" (pyLower s) = false) :
    (gen_case_body s g).1.age2 ∈ ages_travailleur := by
  cases hpes : s != "Personne vivant seule" <;>
    simp [gen_case_body, hr, hpes, h] <;>
    exact randomChoice_fst_mem _ _ _ (by simp [ages_travailleur])

theorem gcb_nochildren (s : String) (g : Gen)
    (h : (!(strIn "retraité" (pyLower s)) && (s != "Personne vivant seule"))
      = false) :
    (gen_case_body s g).1.nb_enfants = 0 ∧
    (gen_case_body s g).1.enfants = [] := by
  cases hret : strIn "retraité" (pyLower s)
  · cases hpes : s != "Personne vivant seule"
    · cases hcpl : strIn "Couple" s <;>
        simp [gen_case_body, hret, hpes, hcpl]
    · rw [hret, hpes] at h
      simp at h
  · cases hcpl : strIn "Couple" s <;>
      simp [gen_case_body, hret, hcpl]

/-- The children list of a generated case is either empty or produced by the
child loop. -/
theorem gcb_enfants_eq (s : String) (g : Gen) :
    (gen_case_body s g).1.enfants = [] ∨
    ∃ g2 n, (gen_case_body s g).1.enfants = (gen_enfants n g2).1 := by
  cases hret : strIn "retraité" (pyLower s) <;>
    cases hpes : s != "Personne vivant seule" <;>
    cases hcpl : strIn "Couple" s <;>
    simp [gen_case_body, hret, hpes, hcpl] <;>
    first
      | exact Or.inl rfl
      | exact Or.inr ⟨_, _, rfl⟩

theorem gcb_children (s : String) (g : Gen) :
    ∀ e ∈ (gen_case_body s g).1.enfants,
      e.age_enfant ∈ ages_enfant ∧
      (e.age_enfant ≤ 5 →
        (∃ f ∈ frais_garde, e.frais = some f) ∧
        ∃ t ∈ types_garde, e.type_garde = some t) ∧
      (5 < e.age_enfant →
        e.frais = some 0 ∧ e.type_garde = some "Subventionnée") := by
  rcases gcb_enfants_eq s g with h | ⟨g2, n, h⟩ <;> rw [h]
  · simp
  · exact gen_enfants_spec n g2

/-- Lifts `gen_case_body_spec` through the situation draw and the main
loop: every case in the generated list satisfies the structural rules. -/
theorem generate_test_cases_spec : ∀ (n : ℕ) (g : Gen),
    ∀ c ∈ (generate_test_cases n g).1,
      c.situation ∈ situations ∧
      c.revenu1 ∈ revenus ∧
      (strIn "retraité" (pyLower c.situation) = true →
        c.age1 ∈ ages_retraite) ∧
      (strIn "retraité" (pyLower c.situation) = false →
        c.age1 ∈ ages_travailleur) ∧
      (strIn "Couple" c.situation = false →
        c.revenu2 = 0 ∧ c.age2 = 0) ∧
      (strIn "Couple" c.situation = true →
        c.revenu2 ∈ revenus ∧
        (strIn "retraité" (pyLower c.situation) = true →
          c.age2 ∈ ages_retraite) ∧
        (strIn "retraité" (pyLower c.situation) = false →
          c.age2 ∈ ages_travailleur)) ∧
      ((!(strIn "retraité" (pyLower c.situation)) &&
          (c.situation != "Personne vivant seule")) = false →
        c.nb_enfants = 0 ∧ c.enfants = []) ∧
      (∀ e ∈ c.enfants,
        e.age_enfant ∈ ages_enfant ∧
        (e.age_enfant ≤ 5 →
          (∃ f ∈ frais_garde, e.frais = some f) ∧
          ∃ t ∈ types_garde, e.type_garde = some t) ∧
        (5 < e.age_enfant →
          e.frais = some 0 ∧ e.type_garde = some "Subventionnée"))
  | 0, g => by simp [generate_test_cases]
  | n + 1, g => by
    intro c hc
    rw [generate_test_cases] at hc
    simp only at hc
    rcases List.mem_cons.mp hc with rfl | ht
    · have hgc : gen_case g = gen_case_body (randomChoice situations "" g).1
          (randomChoice situations "" g).2 := rfl
      rw [hgc]
      have hsit := gcb_situation (randomChoice situations "" g).1
        (randomChoice situations "" g).2
      refine ⟨?_, gcb_revenu1 _ _, ?_, ?_, ?_, ?_, ?_, gcb_children _ _⟩
      · rw [hsit]
        exact randomChoice_fst_mem _ _ _ (by simp [situations])
      · intro h
        rw [hsit] at h
        exact gcb_age1_ret _ _ h
      · intro h
        rw [hsit] at h
        exact gcb_age1_trav _ _ h
      · intro h
        rw [hsit] at h
        exact gcb_noncouple _ _ h
      · intro h
        rw [hsit] at h
        refine ⟨gcb_couple_revenu2 _ _ h, ?_, ?_⟩
        · intro hr
          rw [hsit] at hr
          exact gcb_couple_age2_ret _ _ h hr
        · intro hr
          rw [hsit] at hr
          exact gcb_couple_age2_trav _ _ h hr
      · intro h
        rw [hsit] at h
        exact gcb_nochildren _ _ h
    · exact generate_test_cases_spec n _ c ht

theorem generate_test_cases_length : ∀ (n : ℕ) (g : Gen),
    (generate_test_cases n g).1.length = n
  | 0, _ => rfl
  | n + 1, g => by
    rw [generate_test_cases]
    simp only [List.length_cons]
    rw [generate_test_cases_length n]

/-- C7 as stated is false in its parenthetical: children older than 5 do
carry childcare fee and care-type attributes (the generator assigns the
defaults `frais = 0`, `type_garde = 'Subventionnée'` to them).  A run on the
explicit stream `[1, 0, 0, 1, 2]` yields a 'Famille monoparentale' case with
one child aged 10 whose fee and care-type keys are both present. -/
theorem claim_c7_counterexample :
    ∃ c ∈ (generate_test_cases 1 ⟨fun k => [1, 0, 0, 1, 2].getD k 0, 0⟩).1,
      ∃ e ∈ c.enfants, 5 < e.age_enfant ∧
        e.frais ≠ none ∧ e.type_garde ≠ none := by decide

/-- C7 (amended): cases whose situation is 'Personne vivant seule',
'Retraité vivant seul', or 'Couple de retraités' have `nb_enfants = 0` and
no child attributes; childcare fee and care-type values are only randomly
drawn for children aged ≤ 5, while children older than 5 carry the defaults
`frais = 0` and `type_garde = 'Subventionnée'`. -/
theorem claim_c7_amended (g : Gen) (n : ℕ) :
    ∀ c ∈ (generate_test_cases n g).1,
      ((c.situation = "Personne vivant seule" ∨
        c.situation = "Retraité vivant seul" ∨
        c.situation = "Couple de retraités") →
        c.nb_enfants = 0 ∧ c.enfants = []) ∧
      ∀ e ∈ c.enfants,
        (e.age_enfant ≤ 5 →
          (∃ f ∈ frais_garde, e.frais = some f) ∧
          ∃ t ∈ types_garde, e.type_garde = some t) ∧
        (5 < e.age_enfant →
          e.frais = some 0 ∧ e.type_garde = some "Subventionnée") := by
  intro c hc
  obtain ⟨_, _, _, _, _, _, hnochild, hchild⟩ :=
    generate_test_cases_spec n g c hc
  constructor
  · rintro (hs | hs | hs) <;> refine hnochild ?_ <;> rw [hs] <;> decide
  · intro e he
    exact ⟨(hchild e he).2.1, (hchild e he).2.2⟩

theorem claim_c7_witness :
    (((generate_test_cases 1 ⟨fun k => [3, 0, 0].getD k 0, 0⟩).1.getD 0
        ⟨"", 0, 0, 0, 0, 0, []⟩).nb_enfants = 0 ∧
      ((generate_test_cases 1 ⟨fun k => [3, 0, 0].getD k 0, 0⟩).1.getD 0
        ⟨"", 0, 0, 0, 0, 0, []⟩).enfants = []) :=
  (claim_c7_amended ⟨fun k => [3, 0, 0].getD k 0, 0⟩ 1
      ((generate_test_cases 1 ⟨fun k => [3, 0, 0].getD k 0, 0⟩).1.getD 0
        ⟨"", 0, 0, 0, 0, 0, []⟩)
      (by decide)).1 (Or.inr (Or.inl (by decide)))

/-- C8: `generate_test_cases` is reproducible from a seed: it is a pure
function of the pseudo-random stream, so two runs whose streams and cursors
coincide produce the same finite sequence of exactly `nobs` cases, element
for element. -/
theorem claim_c8_reproducible (nobs : ℕ) (g : Gen) :
    (generate_test_cases nobs g).1.length = nobs ∧
    generate_test_cases nobs g = generate_test_cases nobs g ∧
    ∀ g2 : Gen, g2.stream = g.stream → g2.pos = g.pos →
      (generate_test_cases nobs g2).1 = (generate_test_cases nobs g).1 := by
  refine ⟨generate_test_cases_length nobs g, rfl, ?_⟩
  intro g2 hs hp
  have : g2 = g := by
    cases g2
    cases g
    simp only at hs hp
    rw [hs, hp]
  rw [this]

theorem claim_c8_witness :
    (generate_test_cases 2 ⟨fun k => k, 0⟩).1.length = 2 ∧
    (generate_test_cases 2 ⟨fun k => k, 0⟩).1
      = (generate_test_cases 2 ⟨fun k => k, 0⟩).1 :=
  ⟨(claim_c8_reproducible 2 ⟨fun k => k, 0⟩).1,
   (claim_c8_reproducible 2 ⟨fun k => k, 0⟩).2.2 ⟨fun k => k, 0⟩ rfl rfl⟩

/-- C10: every non-couple case has `revenu2 = 0` and `age2 = 0`; every
couple case draws `revenu1`, `revenu2` from the income candidate set and
both adult ages from the retired set {65, 75, 85} for retired households and
from the worker set {25, 35, 45, 55} otherwise. -/
theorem claim_c10_adults (g : Gen) (n : ℕ) :
    ∀ c ∈ (generate_test_cases n g).1,
      (strIn "Couple" c.situation = false →
        c.revenu2 = 0 ∧ c.age2 = 0) ∧
      (strIn "Couple" c.situation = true →
        c.revenu1 ∈ revenus ∧ c.revenu2 ∈ revenus ∧
        (strIn "retraité" (pyLower c.situation) = true →
          c.age1 ∈ ages_retraite ∧ c.age2 ∈ ages_retraite) ∧
        (strIn "retraité" (pyLower c.situation) = false →
          c.age1 ∈ ages_travailleur ∧ c.age2 ∈ ages_travailleur)) := by
  intro c hc
  obtain ⟨_, hrev1, ha1r, ha1t, hnc, hcp, _, _⟩ :=
    generate_test_cases_spec n g c hc
  refine ⟨hnc, ?_⟩
  intro h
  obtain ⟨hr2, ha2r, ha2t⟩ := hcp h
  exact ⟨hrev1, hr2, fun hr => ⟨ha1r hr, ha2r hr⟩,
    fun hr => ⟨ha1t hr, ha2t hr⟩⟩

theorem claim_c10_witness :
    ((generate_test_cases 1 ⟨fun k => [2, 3, 1, 2, 2, 0].getD k 0, 0⟩).1.getD
        0 ⟨"", 0, 0, 0, 0, 0, []⟩).revenu1 ∈ revenus ∧
    ((generate_test_cases 1 ⟨fun k => [2, 3, 1, 2, 2, 0].getD k 0, 0⟩).1.getD
        0 ⟨"", 0, 0, 0, 0, 0, []⟩).revenu2 ∈ revenus ∧
    (strIn "retraité" (pyLower ((generate_test_cases 1
        ⟨fun k => [2, 3, 1, 2, 2, 0].getD k 0, 0⟩).1.getD 0
        ⟨"", 0, 0, 0, 0, 0, []⟩).situation) = true →
      ((generate_test_cases 1 ⟨fun k => [2, 3, 1, 2, 2, 0].getD k 0,
          0⟩).1.getD 0 ⟨"", 0, 0, 0, 0, 0, []⟩).age1 ∈ ages_retraite ∧
      ((generate_test_cases 1 ⟨fun k => [2, 3, 1, 2, 2, 0].getD k 0,
          0⟩).1.getD 0 ⟨"", 0, 0, 0, 0, 0, []⟩).age2 ∈ ages_retraite) ∧
    (strIn "retraité" (pyLower ((generate_test_cases 1
        ⟨fun k => [2, 3, 1, 2, 2, 0].getD k 0, 0⟩).1.getD 0
        ⟨"", 0, 0, 0, 0, 0, []⟩).situation) = false →
      ((generate_test_cases 1 ⟨fun k => [2, 3, 1, 2, 2, 0].getD k 0,
          0⟩).1.getD 0 ⟨"", 0, 0, 0, 0, 0, []⟩).age1 ∈ ages_travailleur ∧
      ((generate_test_cases 1 ⟨fun k => [2, 3, 1, 2, 2, 0].getD k 0,
          0⟩).1.getD 0 ⟨"", 0, 0, 0, 0, 0, []⟩).age2 ∈ ages_travailleur) :=
  (claim_c10_adults ⟨fun k => [2, 3, 1, 2, 2, 0].getD k 0, 0⟩ 1
      ((generate_test_cases 1 ⟨fun k => [2, 3, 1, 2, 2, 0].getD k 0,
          0⟩).1.getD 0 ⟨"", 0, 0, 0, 0, 0, []⟩)
      (by decide)).2 (by decide)

end RevDisp
